import Mathlib

/-!
Shallow embedding of the Blumelein flower-shop backend
(`src/blumelein_server`): the pydantic data model (`models/schemas.py`),
the Firestore persistence adapter (`database/firestore_adapter.py`) and the
FastAPI routers (`routers/orders.py`, `routers/payments.py`,
`routers/manage.py`).

Modelling conventions:
  - UUIDs are `Nat`; `str(uuid)` and `UUID(str)` round-trip, so a document
    key is the same `Nat` as the order id it stores.
  - `datetime.utcnow()` values are `Nat` timestamps passed explicitly to
    each operation.
  - Python exceptions become `Except` values.  `PyError.valueError` covers
    `ValueError` and pydantic's `ValidationError` (a `ValueError`
    subclass); `PyError.httpError` covers FastAPI's `HTTPException`.
  - Pydantic model construction is embedded by an "arguments" record whose
    fields are `Option`s (a keyword argument present or absent) and a
    validation function that errors on the first missing required field,
    exactly as construction raises in Python.
  - The Firestore document for an order is `OrderDoc`, which mirrors the
    dictionary built by `FirestoreAdapter._order_to_dict` field for field
    (in particular it has no buyer e-mail or phone entries, because the
    source never writes them).
  - The Firestore `orders` collection is an association list from document
    id to document; `set` overwrites in place or appends, `update` merges
    the named fields, as the Firestore client does.
-/

namespace Blumelein

/-- `BouquetSize` enum from `schemas.py`: tokens "S"/"M"/"L". -/
inductive BouquetSize
  | SMALL
  | MEDIUM
  | LARGE
deriving DecidableEq

/-- The wire/storage token of a `BouquetSize` (its `.value`). -/
def BouquetSize.val : BouquetSize → String
  | .SMALL => "S"
  | .MEDIUM => "M"
  | .LARGE => "L"

/-- Enum coercion `BouquetSize(token)`: `none` models the `ValueError`
raised on an unknown token. -/
def BouquetSize.ofVal : String → Option BouquetSize
  | "S" => some .SMALL
  | "M" => some .MEDIUM
  | "L" => some .LARGE
  | _ => none

/-- `PaymentStatus` enum: tokens "Incomplete"/"Completed". -/
inductive PaymentStatus
  | INCOMPLETE
  | COMPLETED
deriving DecidableEq

/-- The wire/storage token of a `PaymentStatus`. -/
def PaymentStatus.val : PaymentStatus → String
  | .INCOMPLETE => "Incomplete"
  | .COMPLETED => "Completed"

/-- Enum coercion `PaymentStatus(token)`. -/
def PaymentStatus.ofVal : String → Option PaymentStatus
  | "Incomplete" => some .INCOMPLETE
  | "Completed" => some .COMPLETED
  | _ => none

/-- `OrderStatus` enum: tokens "Not Started"/"In Progress"/"Completed". -/
inductive OrderStatus
  | NOT_STARTED
  | IN_PROGRESS
  | COMPLETED
deriving DecidableEq

/-- The wire/storage token of an `OrderStatus`. -/
def OrderStatus.val : OrderStatus → String
  | .NOT_STARTED => "Not Started"
  | .IN_PROGRESS => "In Progress"
  | .COMPLETED => "Completed"

/-- Enum coercion `OrderStatus(token)`. -/
def OrderStatus.ofVal : String → Option OrderStatus
  | "Not Started" => some .NOT_STARTED
  | "In Progress" => some .IN_PROGRESS
  | "Completed" => some .COMPLETED
  | _ => none

/-- `ItemCreate` request schema: colours, size, optional comment. -/
structure ItemCreate where
  main_colours : List String
  size : BouquetSize
  comments : Option String
deriving DecidableEq

/-- The `Field` constraints of `ItemCreate`: `main_colours` has
`min_length=1` and `comments` has `max_length=500`. -/
def ItemCreate.isValid (ic : ItemCreate) : Bool :=
  !ic.main_colours.isEmpty &&
    (match ic.comments with
     | none => true
     | some c => c.length ≤ 500)

/-- `Item` schema: an `ItemCreate` plus generated id and creation time. -/
structure Item where
  main_colours : List String
  size : BouquetSize
  comments : Option String
  item_id : Nat
  created_at : Nat
deriving DecidableEq

/-- `Item(**ic.model_dump())` as run in `submit_order`: pydantic
revalidates the `ItemCreate` constraints and fills `item_id` and
`created_at` from their default factories (`uuid4`, `utcnow`). -/
def ItemCreate.toItem (ic : ItemCreate) (freshId now : Nat) :
    Except String Item :=
  if ic.main_colours.isEmpty then
    .error "List should have at least 1 item: main_colours"
  else if (match ic.comments with
           | none => false
           | some c => 500 < c.length) then
    .error "String should have at most 500 characters: comments"
  else
    .ok { main_colours := ic.main_colours, size := ic.size,
          comments := ic.comments, item_id := freshId, created_at := now }

/-- `OrderCreate` request schema. -/
structure OrderCreate where
  items : List ItemCreate
  buyer_full_name : String
  buyer_email : String
  buyer_phone : String
  delivery_address : String
deriving DecidableEq

/-- The `Field` constraints of `OrderCreate` (list `min_length=1`, string
length bounds), checked by FastAPI at the request boundary. -/
def OrderCreate.isValid (oc : OrderCreate) : Bool :=
  !oc.items.isEmpty && oc.items.all ItemCreate.isValid &&
    1 ≤ oc.buyer_full_name.length && oc.buyer_full_name.length ≤ 100 &&
    3 ≤ oc.buyer_email.length && oc.buyer_email.length ≤ 254 &&
    1 ≤ oc.buyer_phone.length && oc.buyer_phone.length ≤ 20 &&
    1 ≤ oc.delivery_address.length && oc.delivery_address.length ≤ 300

/-- `Order` schema: the full stored representation. -/
structure Order where
  order_id : Nat
  items : List Item
  buyer_full_name : String
  buyer_email : String
  buyer_phone : String
  delivery_address : String
  payment_status : PaymentStatus
  order_status : OrderStatus
  created_at : Nat
  updated_at : Nat
deriving DecidableEq

/-- The keyword arguments of a Python `Order(...)` construction: `none`
models an absent keyword argument. -/
structure OrderArgs where
  order_id : Option Nat := none
  items : Option (List Item) := none
  buyer_full_name : Option String := none
  buyer_email : Option String := none
  buyer_phone : Option String := none
  delivery_address : Option String := none
  payment_status : Option PaymentStatus := none
  order_status : Option OrderStatus := none
  created_at : Option Nat := none
  updated_at : Option Nat := none

/-- A required pydantic field: absent keyword argument means the
construction raises `ValidationError`. -/
def requireField {α : Type} (o : Option α) (fld : String) :
    Except String α :=
  match o with
  | some v => .ok v
  | none => .error ("Field required: " ++ fld)

/-- Pydantic construction of `Order`: `order_id`, `created_at` and
`updated_at` have default factories (`uuid4`, `utcnow`) whose outputs are
the `freshId`/`nowC`/`nowU` parameters; `payment_status` defaults to
`INCOMPLETE` and `order_status` to `NOT_STARTED`; every other field is
required and missing it raises. -/
def Order.validate (a : OrderArgs) (freshId nowC nowU : Nat) :
    Except String Order := do
  let items ← requireField a.items "items"
  let name ← requireField a.buyer_full_name "buyer_full_name"
  let email ← requireField a.buyer_email "buyer_email"
  let phone ← requireField a.buyer_phone "buyer_phone"
  let addr ← requireField a.delivery_address "delivery_address"
  .ok { order_id := a.order_id.getD freshId,
        items := items,
        buyer_full_name := name,
        buyer_email := email,
        buyer_phone := phone,
        delivery_address := addr,
        payment_status := a.payment_status.getD .INCOMPLETE,
        order_status := a.order_status.getD .NOT_STARTED,
        created_at := a.created_at.getD nowC,
        updated_at := a.updated_at.getD nowU }

/-- `OrderResponse` schema. -/
structure OrderResponse where
  order_id : Nat
  items : List Item
  buyer_full_name : String
  buyer_email : String
  buyer_phone : String
  delivery_address : String
  payment_status : PaymentStatus
  order_status : OrderStatus
  created_at : Nat
  updated_at : Nat
deriving DecidableEq

/-- `OrderResponse(**order.model_dump())`: every `Order` field is present,
so the construction always succeeds and copies the fields. -/
def OrderResponse.ofOrder (o : Order) : OrderResponse :=
  { order_id := o.order_id, items := o.items,
    buyer_full_name := o.buyer_full_name, buyer_email := o.buyer_email,
    buyer_phone := o.buyer_phone, delivery_address := o.delivery_address,
    payment_status := o.payment_status, order_status := o.order_status,
    created_at := o.created_at, updated_at := o.updated_at }

/-- `PaymentIntent` request schema. -/
structure PaymentIntent where
  order_id : Nat
  amount : Nat
  currency : String
deriving DecidableEq

/-- `PaymentIntentResponse` schema. -/
structure PaymentIntentResponse where
  client_secret : String
  payment_intent_id : String
  amount : Nat
  currency : String
deriving DecidableEq

/-- Item entry of the Firestore order document, mirroring the dictionary
built inside `FirestoreAdapter._order_to_dict`. -/
structure ItemDoc where
  item_id : Nat
  main_colours : List String
  size : String
  comments : Option String
  created_at : Nat
deriving DecidableEq

/-- The Firestore order document, mirroring
`FirestoreAdapter._order_to_dict` field for field.  The source builds the
dictionary without `buyer_email` and `buyer_phone` entries, so the
document type has none. -/
structure OrderDoc where
  order_id : Nat
  items : List ItemDoc
  buyer_full_name : String
  delivery_address : String
  payment_status : String
  order_status : String
  created_at : Nat
  updated_at : Nat
deriving DecidableEq

/-- The `orders` Firestore collection: document id to document. -/
def Store : Type := List (Nat × OrderDoc)

instance : DecidableEq Store := by
  unfold Store
  infer_instance

/-- Document lookup by id (`doc_ref.get`). -/
def Store.get : Store → Nat → Option OrderDoc
  | [], _ => none
  | (k, d) :: rest, oid => if k = oid then some d else Store.get rest oid

/-- `doc_ref.set`: overwrite the document in place, or create it. -/
def Store.set : Store → Nat → OrderDoc → Store
  | [], oid, d => [(oid, d)]
  | (k, d0) :: rest, oid, d =>
      if k = oid then (k, d) :: rest else (k, d0) :: Store.set rest oid d

/-- The documents of the collection in the backing store's stream order
(`collection.stream()`). -/
def Store.stream (s : Store) : List OrderDoc := s.map Prod.snd

/-- `FirestoreAdapter._order_to_dict` restricted to one item. -/
def item_to_dict (it : Item) : ItemDoc :=
  { item_id := it.item_id, main_colours := it.main_colours,
    size := it.size.val, comments := it.comments,
    created_at := it.created_at }

/-- `FirestoreAdapter._order_to_dict`: the dictionary actually persisted.
The source lists `order_id`, `items`, `buyer_full_name`,
`delivery_address`, `payment_status`, `order_status`, `created_at` and
`updated_at` only. -/
def order_to_dict (o : Order) : OrderDoc :=
  { order_id := o.order_id, items := o.items.map item_to_dict,
    buyer_full_name := o.buyer_full_name,
    delivery_address := o.delivery_address,
    payment_status := o.payment_status.val,
    order_status := o.order_status.val,
    created_at := o.created_at, updated_at := o.updated_at }

/-- The `Item(...)` construction inside `_dict_to_order`: enum coercion of
the size token and pydantic revalidation of the `ItemCreate` constraints. -/
def dict_to_item (d : ItemDoc) : Except String Item :=
  match BouquetSize.ofVal d.size with
  | none => .error ("Input should be a valid BouquetSize: " ++ d.size)
  | some sz =>
      if d.main_colours.isEmpty then
        .error "List should have at least 1 item: main_colours"
      else if (match d.comments with
               | none => false
               | some c => 500 < c.length) then
        .error "String should have at most 500 characters: comments"
      else
        .ok { main_colours := d.main_colours, size := sz,
              comments := d.comments, item_id := d.item_id,
              created_at := d.created_at }

/-- `FirestoreAdapter._dict_to_order`: rebuilds the `Item` list, coerces
the status tokens, then constructs `Order(...)` passing exactly the
keyword arguments the source passes — `order_id`, `items`,
`buyer_full_name`, `delivery_address`, `payment_status`, `order_status`,
`created_at`, `updated_at` (no buyer e-mail or phone).  The default
factories are never consulted because those three fields are supplied, so
their parameters are instantiated with `0`. -/
def dict_to_order (d : OrderDoc) : Except String Order := do
  let items ← d.items.mapM dict_to_item
  let ps ← (match PaymentStatus.ofVal d.payment_status with
            | some v => Except.ok v
            | none => Except.error
                ("Input should be a valid PaymentStatus: " ++
                  d.payment_status))
  let os ← (match OrderStatus.ofVal d.order_status with
            | some v => Except.ok v
            | none => Except.error
                ("Input should be a valid OrderStatus: " ++
                  d.order_status))
  Order.validate
    { order_id := some d.order_id, items := some items,
      buyer_full_name := some d.buyer_full_name,
      delivery_address := some d.delivery_address,
      payment_status := some ps, order_status := some os,
      created_at := some d.created_at, updated_at := some d.updated_at }
    0 0 0

/-- `FirestoreAdapter.create_order`: persist `_order_to_dict(order)` under
document id `str(order.order_id)` and return the order unchanged. -/
def create_order (s : Store) (o : Order) : Order × Store :=
  (o, Store.set s o.order_id (order_to_dict o))

/-- `FirestoreAdapter.get_order`: absent document yields `None`; an
existing document is converted back through `_dict_to_order` (whose
pydantic failure propagates as a raised `ValidationError`). -/
def get_order (s : Store) (oid : Nat) : Except String (Option Order) :=
  match Store.get s oid with
  | none => .ok none
  | some d =>
      match dict_to_order d with
      | .error e => .error e
      | .ok o => .ok (some o)

/-- Stable insertion of an order into a list already sorted by
`created_at` descending (the comparison mirrors Python's stable
`list.sort(key=..., reverse=True)`). -/
def insertByCreatedDesc (o : Order) : List Order → List Order
  | [] => [o]
  | x :: xs =>
      if o.created_at ≤ x.created_at then x :: insertByCreatedDesc o xs
      else o :: x :: xs

/-- Stable sort by `created_at` descending. -/
def sortByCreatedDesc (l : List Order) : List Order :=
  match l with
  | [] => []
  | x :: xs => insertByCreatedDesc x (sortByCreatedDesc xs)

/-- `FirestoreAdapter.get_all_orders`: converts every streamed document
through `_dict_to_order` (the first pydantic failure raises out of the
loop), then sorts by `created_at` descending, newest first. -/
def get_all_orders (s : Store) : Except String (List Order) :=
  match s.stream.mapM dict_to_order with
  | .error e => .error e
  | .ok orders => .ok (sortByCreatedDesc orders)

/-- `FirestoreAdapter.update_order_payment_status`: absent document
returns `None` without writing; otherwise `doc_ref.update` merges the new
`payment_status` token and a fresh `updated_at`, and the function re-reads
and converts the document (whose pydantic failure propagates after the
write has already happened). -/
def update_order_payment_status (s : Store) (oid : Nat)
    (ps : PaymentStatus) (now : Nat) :
    Except String (Option Order) × Store :=
  match Store.get s oid with
  | none => (.ok none, s)
  | some d =>
      let d' := { d with payment_status := ps.val, updated_at := now }
      let s' := Store.set s oid d'
      match dict_to_order d' with
      | .error e => (.error e, s')
      | .ok o => (.ok (some o), s')

/-- `FirestoreAdapter.update_order_status`: same shape for the fulfillment
status. -/
def update_order_status (s : Store) (oid : Nat) (os : OrderStatus)
    (now : Nat) : Except String (Option Order) × Store :=
  match Store.get s oid with
  | none => (.ok none, s)
  | some d =>
      let d' := { d with order_status := os.val, updated_at := now }
      let s' := Store.set s oid d'
      match dict_to_order d' with
      | .error e => (.error e, s')
      | .ok o => (.ok (some o), s')

/-- A Python exception escaping a handler: `httpError` is FastAPI's
`HTTPException(status_code, detail)`; `valueError` is `ValueError`
(including pydantic's `ValidationError`, a `ValueError` subclass), which
the framework turns into a server error unless a handler catches it. -/
inductive PyError
  | httpError (code : Nat) (detail : String)
  | valueError (msg : String)
deriving DecidableEq

/-- The item comprehension of `routers/orders.py::submit_order`,
`Item(**item.model_dump()) for item in order_data.items`: position `i`
gets its own `uuid4()` output `itemIds i`, and the first pydantic failure
raises out of the comprehension. -/
def buildItems (itemIds : Nat → Nat) (now : Nat) :
    Nat → List ItemCreate → Except String (List Item)
  | _, [] => .ok []
  | i, ic :: rest =>
      match ic.toItem (itemIds i) now with
      | .error e => .error e
      | .ok it =>
          match buildItems itemIds now (i + 1) rest with
          | .error e => .error e
          | .ok its => .ok (it :: its)

/-- `routers/orders.py::submit_order`: builds an `Item` from each
submitted `ItemCreate`, then constructs the order as
`Order(items=items, buyer_full_name=..., delivery_address=...)` — those
are the only keyword arguments the source passes — and, if construction
succeeds, persists it and answers with an `OrderResponse`.  `itemIds` and
`orderId` are the `uuid4()` outputs, `now` the `utcnow()` stamp. -/
def submit_order (req : OrderCreate) (itemIds : Nat → Nat) (orderId : Nat)
    (now : Nat) (s : Store) : Except PyError OrderResponse × Store :=
  match buildItems itemIds now 0 req.items with
  | .error e => (.error (.valueError e), s)
  | .ok items =>
      match Order.validate
          { items := some items,
            buyer_full_name := some req.buyer_full_name,
            delivery_address := some req.delivery_address }
          orderId now now with
      | .error e => (.error (.valueError e), s)
      | .ok order =>
          let r := create_order s order
          (.ok (OrderResponse.ofOrder r.1), r.2)

/-- `routers/orders.py::get_order_by_id`: looks the order up, answers 404
when absent, otherwise returns the full representation. -/
def get_order_by_id (s : Store) (oid : Nat) :
    Except PyError OrderResponse :=
  match get_order s oid with
  | .error e => .error (.valueError e)
  | .ok none =>
      .error (.httpError 404 ("Order with ID " ++ toString oid ++
        " not found"))
  | .ok (some o) => .ok (OrderResponse.ofOrder o)

/-- Outcome of `stripe.PaymentIntent.create`: the processor either issues
a client secret and intent id (echoing amount and currency) or raises a
`StripeError` with a message. -/
inductive StripeResult
  | intent (client_secret : String) (id : String)
  | stripeError (msg : String)

/-- `routers/payments.py::create_payment_intent`: loads the order (404 if
absent), rejects an already-paid order with a 400, otherwise calls the
processor.  The `Bool` component records whether
`stripe.PaymentIntent.create` was invoked. -/
def create_payment_intent (s : Store) (pd : PaymentIntent)
    (sr : StripeResult) : Except PyError PaymentIntentResponse × Bool :=
  match get_order s pd.order_id with
  | .error e => (.error (.valueError e), false)
  | .ok none =>
      (.error (.httpError 404 ("Order with ID " ++ toString pd.order_id ++
        " not found")), false)
  | .ok (some order) =>
      if order.payment_status = PaymentStatus.COMPLETED then
        (.error (.httpError 400 "Order has already been paid"), false)
      else
        match sr with
        | .intent cs pid =>
            (.ok { client_secret := cs, payment_intent_id := pid,
                   amount := pd.amount, currency := pd.currency }, true)
        | .stripeError m =>
            (.error (.httpError 400 ("Stripe error: " ++ m)), true)

/-- The `order_id` entry of a verified event's metadata: absent, a
well-formed UUID string, or a string `UUID(...)` rejects with
`ValueError`. -/
inductive MetaOrderId
  | missing
  | valid (oid : Nat)
  | malformed (s : String)

/-- A verified Stripe event: its `type` string and the `order_id`
metadata of its payment-intent object. -/
structure StripeEvent where
  type : String
  metadata_order_id : MetaOrderId

/-- Outcome of `stripe.Webhook.construct_event` on the raw body and
signature header: a verified event, a payload that cannot be parsed
(`ValueError`), or a failed signature check
(`SignatureVerificationError`). -/
inductive VerifyResult
  | event (e : StripeEvent)
  | badPayload
  | badSig

/-- The JSON body answered by the webhook handler. -/
structure JsonAck where
  status : String
deriving DecidableEq

/-- `routers/payments.py::stripe_webhook`.  `sig` is the
`stripe-signature` header (`none` when absent); Python's `if not
stripe_signature` also treats an empty header as missing.  Signature and
payload failures answer distinct 400s before anything touches the store.
On a verified `payment_intent.succeeded` event the handler reads the
`order_id` metadata; a missing id is skipped, a malformed one raises
`ValueError` which the `except ValueError` arm swallows — the same arm
also swallows the pydantic `ValidationError` escaping
`update_order_payment_status` — and in every such case the handler still
acknowledges with status "success". -/
def stripe_webhook (sig : Option String) (vr : VerifyResult) (s : Store)
    (now : Nat) : Except PyError JsonAck × Store :=
  if sig.getD "" = "" then
    (.error (.httpError 400 "Missing Stripe signature"), s)
  else
    match vr with
    | .badPayload => (.error (.httpError 400 "Invalid payload"), s)
    | .badSig => (.error (.httpError 400 "Invalid signature"), s)
    | .event e =>
        if e.type = "payment_intent.succeeded" then
          match e.metadata_order_id with
          | .missing => (.ok { status := "success" }, s)
          | .malformed _ => (.ok { status := "success" }, s)
          | .valid oid =>
              let r := update_order_payment_status s oid
                PaymentStatus.COMPLETED now
              (.ok { status := "success" }, r.2)
        else
          (.ok { status := "success" }, s)

/-- `routers/manage.py::verify_admin_key`: FastAPI's
`APIKeyHeader(auto_error=True)` answers 403 "Not authenticated" when the
header is absent; a present key that differs from the configured secret
is rejected 403 "Invalid API key". -/
def verify_admin_key (api_key : Option String) (secret : String) :
    Except PyError String :=
  match api_key with
  | none => .error (.httpError 403 "Not authenticated")
  | some k =>
      if k ≠ secret then .error (.httpError 403 "Invalid API key")
      else .ok k

/-- `routers/manage.py::list_all_orders`, gated by `verify_admin_key`. -/
def list_all_orders (api_key : Option String) (secret : String)
    (s : Store) : Except PyError (List OrderResponse) :=
  match verify_admin_key api_key secret with
  | .error e => .error e
  | .ok _ =>
      match get_all_orders s with
      | .error e => .error (.valueError e)
      | .ok orders => .ok (orders.map OrderResponse.ofOrder)

/-- `routers/manage.py::get_order_details`, gated by `verify_admin_key`. -/
def get_order_details (api_key : Option String) (secret : String)
    (s : Store) (oid : Nat) : Except PyError OrderResponse :=
  match verify_admin_key api_key secret with
  | .error e => .error e
  | .ok _ =>
      match get_order s oid with
      | .error e => .error (.valueError e)
      | .ok none =>
          .error (.httpError 404 ("Order with ID " ++ toString oid ++
            " not found"))
      | .ok (some o) => .ok (OrderResponse.ofOrder o)

/-- `routers/manage.py::update_order_processing_status`, gated by
`verify_admin_key`: verifies the order exists (404 otherwise), then calls
the adapter's `update_order_status` and answers 500 if that reports the
order gone. -/
def update_order_processing_status (api_key : Option String)
    (secret : String) (s : Store) (oid : Nat) (st : OrderStatus)
    (now : Nat) : Except PyError OrderResponse × Store :=
  match verify_admin_key api_key secret with
  | .error e => (.error e, s)
  | .ok _ =>
      match get_order s oid with
      | .error e => (.error (.valueError e), s)
      | .ok none =>
          (.error (.httpError 404 ("Order with ID " ++ toString oid ++
            " not found")), s)
      | .ok (some _) =>
          let r := update_order_status s oid st now
          match r.1 with
          | .error e => (.error (.valueError e), r.2)
          | .ok none =>
              (.error (.httpError 500 "Failed to update order status"),
                r.2)
          | .ok (some o) => (.ok (OrderResponse.ofOrder o), r.2)

/-- One inbound API request with the non-deterministic inputs (generated
ids, clock readings, processor outcomes) made explicit. -/
inductive ApiOp
  | submitOrder (req : OrderCreate) (itemIds : Nat → Nat) (orderId : Nat)
      (now : Nat)
  | getOrder (oid : Nat)
  | adminList (api_key : Option String)
  | adminGetOrder (api_key : Option String) (oid : Nat)
  | adminUpdateStatus (api_key : Option String) (oid : Nat)
      (st : OrderStatus) (now : Nat)
  | createIntent (pd : PaymentIntent) (sr : StripeResult)
  | webhook (sig : Option String) (vr : VerifyResult) (now : Nat)

/-- The store after handling one request (responses discarded); the pure
reads leave the store as the handlers do. -/
def step (secret : String) (s : Store) : ApiOp → Store
  | .submitOrder req itemIds orderId now =>
      (submit_order req itemIds orderId now s).2
  | .getOrder _ => s
  | .adminList _ => s
  | .adminGetOrder _ _ => s
  | .adminUpdateStatus api_key oid st now =>
      (update_order_processing_status api_key secret s oid st now).2
  | .createIntent _ _ => s
  | .webhook sig vr now => (stripe_webhook sig vr s now).2

/-! Concrete fixtures used to evaluate the definitions. -/

/-- A concrete stored item: one red medium bouquet. -/
def exItem : Item :=
  { main_colours := ["red"], size := .MEDIUM, comments := none,
    item_id := 11, created_at := 5 }

/-- A concrete full order as the schema defines it. -/
def exOrder : Order :=
  { order_id := 1, items := [exItem], buyer_full_name := "Jane",
    buyer_email := "jane@example.com", buyer_phone := "+15550123",
    delivery_address := "123 Main St", payment_status := .INCOMPLETE,
    order_status := .NOT_STARTED, created_at := 5, updated_at := 5 }

/-- A concrete valid creation request. -/
def exReq : OrderCreate :=
  { items := [{ main_colours := ["red"], size := .MEDIUM,
                comments := none }],
    buyer_full_name := "Jane", buyer_email := "jane@example.com",
    buyer_phone := "+15550123", delivery_address := "123 Main St" }

/-- A concrete persisted document with payment still incomplete. -/
def exDoc : OrderDoc :=
  { order_id := 2,
    items := [{ item_id := 21, main_colours := ["red"], size := "M",
                comments := none, created_at := 3 }],
    buyer_full_name := "Jane", delivery_address := "123 Main St",
    payment_status := "Incomplete", order_status := "Not Started",
    created_at := 3, updated_at := 3 }

/-- A concrete persisted document already marked paid. -/
def paidDoc : OrderDoc :=
  { exDoc with payment_status := "Completed" }

/-! Helper lemmas about the store and the embedded operations. -/

/-- Reading back the document just written. -/
theorem Store.get_set_self (s : Store) (k : Nat) (v : OrderDoc) :
    Store.get (Store.set s k v) k = some v := by
  induction s with
  | nil => simp [Store.set, Store.get]
  | cons hd tl ih =>
      obtain ⟨k0, d0⟩ := hd
      by_cases hk : k0 = k
      · simp [Store.set, Store.get, hk]
      · simp [Store.set, Store.get, hk, ih]

/-- Writing one document leaves every other document unchanged. -/
theorem Store.get_set_ne (s : Store) (k k' : Nat) (v : OrderDoc)
    (h : k' ≠ k) :
    Store.get (Store.set s k v) k' = Store.get s k' := by
  induction s with
  | nil =>
      simp only [Store.set, Store.get]
      rw [if_neg (fun hh => h hh.symm)]
  | cons hd tl ih =>
      obtain ⟨k0, d0⟩ := hd
      by_cases hk : k0 = k
      · subst hk
        have hne : ¬ k0 = k' := fun hh => h hh.symm
        simp [Store.set, Store.get, hne]
      · simp [Store.set, Store.get, hk, ih]

/-- A valid `ItemCreate` revalidates successfully into an `Item`. -/
theorem toItem_ok (ic : ItemCreate) (h : ic.isValid = true)
    (fid now : Nat) :
    ic.toItem fid now =
      .ok { main_colours := ic.main_colours, size := ic.size,
            comments := ic.comments, item_id := fid,
            created_at := now } := by
  simp only [ItemCreate.isValid, Bool.and_eq_true, Bool.not_eq_true'] at h
  obtain ⟨h1, h2⟩ := h
  unfold ItemCreate.toItem
  rw [h1]
  cases hc : ic.comments with
  | none => simp
  | some c =>
      rw [hc] at h2
      simp only [decide_eq_true_eq] at h2 ⊢
      simp [Nat.not_lt.mpr h2]

/-- The item comprehension succeeds on a list of valid item requests. -/
theorem buildItems_ok (itemIds : Nat → Nat) (now : Nat) :
    ∀ (i : Nat) (l : List ItemCreate),
      (∀ ic ∈ l, ic.isValid = true) →
      ∃ items, buildItems itemIds now i l = .ok items := by
  intro i l
  induction l generalizing i with
  | nil => exact fun _ => ⟨[], rfl⟩
  | cons hd tl ih =>
      intro hmem
      obtain ⟨its, hits⟩ :=
        ih (i + 1) (fun ic hic => hmem ic (List.mem_cons_of_mem hd hic))
      refine ⟨{ main_colours := hd.main_colours, size := hd.size,
                comments := hd.comments, item_id := itemIds i,
                created_at := now } :: its, ?_⟩
      unfold buildItems
      rw [toItem_ok hd (hmem hd (List.mem_cons_self hd tl)) (itemIds i)
        now, hits]

/-- `_dict_to_order` never succeeds: the source constructs `Order(...)`
without the required `buyer_email` (and `buyer_phone`) keyword
arguments. -/
theorem dict_to_order_isOk_false (d : OrderDoc) :
    (dict_to_order d).isOk = false := by
  unfold dict_to_order
  cases d.items.mapM dict_to_item with
  | error e => rfl
  | ok items =>
      cases PaymentStatus.ofVal d.payment_status with
      | none => rfl
      | some ps =>
          cases OrderStatus.ofVal d.order_status with
          | none => rfl
          | some os => rfl

/-- `get_order` on a present document raises the reconstruction error. -/
theorem get_order_of_present (s : Store) (oid : Nat) (d : OrderDoc)
    (h : Store.get s oid = some d) :
    ∃ e, get_order s oid = .error e := by
  cases hd : dict_to_order d with
  | error e => exact ⟨e, by simp [get_order, h, hd]⟩
  | ok o =>
      exfalso
      have hx := dict_to_order_isOk_false d
      rw [hd] at hx
      simp [Except.isOk, Except.toBool] at hx

/-- `submit_order` never writes to the store. -/
theorem submit_order_snd (req : OrderCreate) (itemIds : Nat → Nat)
    (orderId now : Nat) (s : Store) :
    (submit_order req itemIds orderId now s).2 = s := by
  unfold submit_order
  cases buildItems itemIds now 0 req.items with
  | error e => rfl
  | ok items => rfl

/-- The admin status endpoint never writes to the store: with a wrong key
it rejects, with an absent order it answers 404, and with a present order
`get_order` raises before `update_order_status` is reached. -/
theorem update_order_processing_status_snd (k : Option String)
    (secret : String) (s : Store) (oid : Nat) (st : OrderStatus)
    (now : Nat) :
    (update_order_processing_status k secret s oid st now).2 = s := by
  unfold update_order_processing_status
  cases verify_admin_key k secret with
  | error e => rfl
  | ok key =>
      cases hs : Store.get s oid with
      | none => simp [get_order, hs]
      | some d =>
          obtain ⟨e, he⟩ := get_order_of_present s oid d hs
          rw [he]

/-! The claims. -/

/-- Claim C1: the claim states that every valid order-creation request
succeeds and returns the stored order with the buyer's name, email, phone
and address.  The code instead constructs `Order` without the required
`buyer_email` and `buyer_phone` keyword arguments, so for every request
whose items are valid `submit_order` raises a pydantic `ValidationError`
("Field required: buyer_email"), stores nothing, and the endpoint fails
with a server error. -/
theorem claim_C1 (req : OrderCreate) (itemIds : Nat → Nat)
    (orderId now : Nat) (s : Store)
    (h : req.items.all ItemCreate.isValid = true) :
    submit_order req itemIds orderId now s =
      (.error (.valueError "Field required: buyer_email"), s) := by
  obtain ⟨items, hi⟩ :=
    buildItems_ok itemIds now 0 req.items (List.all_eq_true.mp h)
  unfold submit_order
  rw [hi]
  rfl

/-- Claim C1 witness: the failure evaluated at a concrete valid request. -/
theorem claim_C1_witness :
    submit_order exReq (fun i => 10 + i) 1 5 [] =
      (.error (.valueError "Field required: buyer_email"), []) :=
  claim_C1 exReq (fun i => 10 + i) 1 5 [] (by decide)

/-- Claim C2: the claim states that `get_order` returns the stored order
exactly as last written, the persisted record carrying the buyer's email
and phone among its fields.  In the code `_order_to_dict` drops
`buyer_email` and `buyer_phone` from the persisted document, and
`_dict_to_order` therefore fails pydantic validation, so reading back a
freshly stored order raises instead of returning it. -/
theorem claim_C2 :
    dict_to_order (order_to_dict exOrder) =
      .error "Field required: buyer_email" ∧
    get_order (create_order [] exOrder).2 exOrder.order_id =
      .error "Field required: buyer_email" :=
  ⟨rfl, rfl⟩

/-- Claim C3: at the storage layer `update_order_payment_status` on a
stored id replaces exactly the `payment_status` token and the
`updated_at` stamp (which, the clock having advanced since creation, is
strictly later than `created_at`), leaves every other field of the
document and every other document unchanged, and on an unknown id
returns `None` and writes nothing. -/
theorem claim_C3 (s : Store) (oid : Nat) (ps : PaymentStatus)
    (now : Nat) :
    (∀ d, Store.get s oid = some d → d.created_at < now →
      Store.get (update_order_payment_status s oid ps now).2 oid =
          some { d with payment_status := ps.val, updated_at := now } ∧
        OrderDoc.created_at
            { d with payment_status := ps.val, updated_at := now } <
          OrderDoc.updated_at
            { d with payment_status := ps.val, updated_at := now } ∧
        ∀ k, k ≠ oid →
          Store.get (update_order_payment_status s oid ps now).2 k =
            Store.get s k) ∧
    (Store.get s oid = none →
      update_order_payment_status s oid ps now = (.ok none, s)) := by
  constructor
  · intro d hd hlt
    have h2 : (update_order_payment_status s oid ps now).2 =
        Store.set s oid
          { d with payment_status := ps.val, updated_at := now } := by
      cases hdo : dict_to_order
          { d with payment_status := ps.val, updated_at := now } with
      | error e => simp [update_order_payment_status, hd, hdo]
      | ok o => simp [update_order_payment_status, hd, hdo]
    refine ⟨?_, hlt, ?_⟩
    · rw [h2, Store.get_set_self]
    · intro k hk
      rw [h2, Store.get_set_ne s oid k _ hk]
  · intro hnone
    unfold update_order_payment_status
    rw [hnone]

/-- Claim C3 witness: the update evaluated on a one-document store and on
an id with no document. -/
theorem claim_C3_witness :
    Store.get
        (update_order_payment_status [(2, exDoc)] 2
          PaymentStatus.COMPLETED 9).2 2 =
      some { exDoc with payment_status := "Completed", updated_at := 9 } ∧
    update_order_payment_status [(2, exDoc)] 7
        PaymentStatus.COMPLETED 9 =
      (.ok none, [(2, exDoc)]) :=
  ⟨((claim_C3 [(2, exDoc)] 2 PaymentStatus.COMPLETED 9).1 exDoc rfl
      (by decide)).1,
   (claim_C3 [(2, exDoc)] 7 PaymentStatus.COMPLETED 9).2 rfl⟩

/-- Claim C4: the claim states that the admin status update transitions a
stored order's status unconditionally and answers 404 on an unknown id.
The 404 half holds, but on a stored order the handler's `get_order`
raises the pydantic reconstruction error ("Field required: buyer_email")
before `update_order_status` runs, so the endpoint fails with a server
error and the status never transitions. -/
theorem claim_C4 :
    update_order_processing_status (some "sk") "sk" [(2, exDoc)] 2
        OrderStatus.IN_PROGRESS 9 =
      (.error (.valueError "Field required: buyer_email"),
        [(2, exDoc)]) ∧
    update_order_processing_status (some "sk") "sk" [] 2
        OrderStatus.IN_PROGRESS 9 =
      (.error (.httpError 404 "Order with ID 2 not found"), []) :=
  ⟨rfl, rfl⟩

/-- Claim C5: the claim states that a payment intent against an
already-paid order fails with the conflict error and no processor call,
and a missing order yields 404 without a processor call.  The 404 half
holds (and no processor call happens either way), but on a stored paid
order `get_order` raises the pydantic reconstruction error before the
already-paid check, so the conflict rejection is never produced. -/
theorem claim_C5 :
    create_payment_intent [(2, paidDoc)]
        { order_id := 2, amount := 5000, currency := "usd" }
        (.intent "cs" "pi") =
      (.error (.valueError "Field required: buyer_email"), false) ∧
    create_payment_intent []
        { order_id := 2, amount := 5000, currency := "usd" }
        (.intent "cs" "pi") =
      (.error (.httpError 404 "Order with ID 2 not found"), false) :=
  ⟨rfl, rfl⟩

/-- Claim C6: the webhook rejects with a distinct 400 client error when
the signature header is missing, when the payload cannot be verified and
when the signature is invalid; each rejection leaves the store untouched
and its outcome does not depend on the store at all, so it happens before
any order lookup or storage access. -/
theorem claim_C6 (s t : Store) (vr : VerifyResult) (now now2 : Nat)
    (sg : String) (h : sg ≠ "") :
    stripe_webhook none vr s now =
      (.error (.httpError 400 "Missing Stripe signature"), s) ∧
    stripe_webhook (some sg) .badPayload s now =
      (.error (.httpError 400 "Invalid payload"), s) ∧
    stripe_webhook (some sg) .badSig s now =
      (.error (.httpError 400 "Invalid signature"), s) ∧
    (stripe_webhook none vr s now).1 =
      (stripe_webhook none vr t now2).1 ∧
    (stripe_webhook (some sg) .badPayload s now).1 =
      (stripe_webhook (some sg) .badPayload t now2).1 ∧
    (stripe_webhook (some sg) .badSig s now).1 =
      (stripe_webhook (some sg) .badSig t now2).1 ∧
    (PyError.httpError 400 "Missing Stripe signature" ≠
      PyError.httpError 400 "Invalid payload") ∧
    (PyError.httpError 400 "Missing Stripe signature" ≠
      PyError.httpError 400 "Invalid signature") ∧
    (PyError.httpError 400 "Invalid payload" ≠
      PyError.httpError 400 "Invalid signature") := by
  have hm : ∀ (u : Store) (m : Nat), stripe_webhook none vr u m =
      (.error (.httpError 400 "Missing Stripe signature"), u) :=
    fun u m => rfl
  have hp : ∀ (u : Store) (m : Nat),
      stripe_webhook (some sg) .badPayload u m =
        (.error (.httpError 400 "Invalid payload"), u) := by
    intro u m
    simp [stripe_webhook, h]
  have hsg : ∀ (u : Store) (m : Nat),
      stripe_webhook (some sg) .badSig u m =
        (.error (.httpError 400 "Invalid signature"), u) := by
    intro u m
    simp [stripe_webhook, h]
  refine ⟨hm s now, hp s now, hsg s now, ?_, ?_, ?_,
    by decide, by decide, by decide⟩
  · rw [hm s now, hm t now2]
  · rw [hp s now, hp t now2]
  · rw [hsg s now, hsg t now2]

/-- Claim C6 witness: a bad payload rejected on a concrete request. -/
theorem claim_C6_witness :
    stripe_webhook (some "sig") .badPayload [] 0 =
      (.error (.httpError 400 "Invalid payload"), []) :=
  (claim_C6 [] [(2, exDoc)] .badPayload 0 1 "sig" (by decide)).2.1

/-- Claim C7: a verified "payment_intent.succeeded" event whose order-id
metadata is missing, malformed, or names an order with no stored
document is still acknowledged with the success body, and the store is
left unchanged. -/
theorem claim_C7 (s : Store) (now : Nat) (sg : String) (h : sg ≠ "")
    (oid : Nat) (ms : String) :
    stripe_webhook (some sg)
        (.event { type := "payment_intent.succeeded",
                  metadata_order_id := .missing }) s now =
      (.ok { status := "success" }, s) ∧
    stripe_webhook (some sg)
        (.event { type := "payment_intent.succeeded",
                  metadata_order_id := .malformed ms }) s now =
      (.ok { status := "success" }, s) ∧
    (Store.get s oid = none →
      stripe_webhook (some sg)
          (.event { type := "payment_intent.succeeded",
                    metadata_order_id := .valid oid }) s now =
        (.ok { status := "success" }, s)) := by
  refine ⟨?_, ?_, ?_⟩
  · simp [stripe_webhook, h]
  · simp [stripe_webhook, h]
  · intro hn
    simp [stripe_webhook, h, update_order_payment_status, hn]

/-- Claim C7 witness: a succeeded event naming an order id with no stored
document, on a concrete store. -/
theorem claim_C7_witness :
    stripe_webhook (some "sig")
        (.event { type := "payment_intent.succeeded",
                  metadata_order_id := .valid 7 }) [(2, exDoc)] 9 =
      (.ok { status := "success" }, [(2, exDoc)]) :=
  (claim_C7 [(2, exDoc)] 9 "sig" (by decide) 7 "zz").2.2 rfl

/-- An admin key that is absent or differs from the configured secret is
rejected 403 by `verify_admin_key`. -/
theorem verify_admin_key_reject (k : Option String) (secret : String)
    (h : k ≠ some secret) :
    ∃ d, verify_admin_key k secret = .error (.httpError 403 d) := by
  cases k with
  | none => exact ⟨"Not authenticated", rfl⟩
  | some v =>
      have hv : v ≠ secret := fun hh => h (by rw [hh])
      refine ⟨"Invalid API key", ?_⟩
      simp [verify_admin_key, hv]

/-- Claim C8: every admin-prefixed endpoint (list, detail, status update)
rejects an absent or wrong admin key with a 403 forbidden error; the
answer does not depend on the store, and the status-update endpoint
leaves the store untouched, so the rejection happens before any service
logic or storage access. -/
theorem claim_C8 (k : Option String) (secret : String) (s t : Store)
    (oid : Nat) (st : OrderStatus) (now : Nat) (h : k ≠ some secret) :
    ∃ d, verify_admin_key k secret = .error (.httpError 403 d) ∧
      list_all_orders k secret s = .error (.httpError 403 d) ∧
      list_all_orders k secret s = list_all_orders k secret t ∧
      get_order_details k secret s oid = .error (.httpError 403 d) ∧
      get_order_details k secret s oid =
        get_order_details k secret t oid ∧
      update_order_processing_status k secret s oid st now =
        (.error (.httpError 403 d), s) := by
  obtain ⟨d, hd⟩ := verify_admin_key_reject k secret h
  refine ⟨d, hd, ?_, ?_, ?_, ?_, ?_⟩
  · simp [list_all_orders, hd]
  · simp [list_all_orders, hd]
  · simp [get_order_details, hd]
  · simp [get_order_details, hd]
  · simp [update_order_processing_status, hd]

/-- Claim C8 witness: an absent key rejected on a concrete store. -/
theorem claim_C8_witness :
    ∃ d, verify_admin_key none "sk" = .error (.httpError 403 d) ∧
      list_all_orders none "sk" [(2, exDoc)] =
        .error (.httpError 403 d) ∧
      list_all_orders none "sk" [(2, exDoc)] =
        list_all_orders none "sk" [] ∧
      get_order_details none "sk" [(2, exDoc)] 2 =
        .error (.httpError 403 d) ∧
      get_order_details none "sk" [(2, exDoc)] 2 =
        get_order_details none "sk" [] 2 ∧
      update_order_processing_status none "sk" [(2, exDoc)] 2
          OrderStatus.IN_PROGRESS 9 =
        (.error (.httpError 403 d), [(2, exDoc)]) :=
  claim_C8 none "sk" [(2, exDoc)] [] 2 OrderStatus.IN_PROGRESS 9
    (by decide)

/-- Claim C9: the claim states that `get_all_orders` returns every stored
order sorted by creation time descending.  In the code every streamed
document passes through `_dict_to_order`, which fails pydantic validation
(the persisted documents have no `buyer_email`), so listing any
non-empty store raises instead of returning the sorted list; only the
empty store returns at all. -/
theorem claim_C9 :
    get_all_orders (create_order [] exOrder).2 =
      .error "Field required: buyer_email" ∧
    get_all_orders [] = .ok [] :=
  ⟨rfl, rfl⟩

/-- Writing payment status via the adapter only ever writes the
"Completed" token the webhook passes, so it preserves "the order at `oid`
is marked Completed". -/
theorem update_payment_paid_preserves (s : Store) (oid oid2 now : Nat)
    (h : ∀ d, Store.get s oid = some d →
      d.payment_status = PaymentStatus.COMPLETED.val) :
    ∀ d', Store.get
        (update_order_payment_status s oid2
          PaymentStatus.COMPLETED now).2 oid = some d' →
      d'.payment_status = PaymentStatus.COMPLETED.val := by
  intro d' hd'
  cases hs : Store.get s oid2 with
  | none =>
      rw [show (update_order_payment_status s oid2
            PaymentStatus.COMPLETED now).2 = s from
          by simp [update_order_payment_status, hs]] at hd'
      exact h d' hd'
  | some d0 =>
      have h2 : (update_order_payment_status s oid2
          PaymentStatus.COMPLETED now).2 =
          Store.set s oid2
            { d0 with payment_status := PaymentStatus.COMPLETED.val, updated_at := now } := by
        cases hdo : dict_to_order
            { d0 with payment_status := PaymentStatus.COMPLETED.val, updated_at := now } with
        | error e => simp [update_order_payment_status, hs, hdo]
        | ok o => simp [update_order_payment_status, hs, hdo]
      rw [h2] at hd'
      by_cases he : oid = oid2
      · subst he
        rw [Store.get_set_self] at hd'
        rw [← Option.some.inj hd']
      · rw [Store.get_set_ne s oid2 oid _ he] at hd'
        exact h d' hd'

/-- One API request preserves "the order at `oid` is marked Completed":
the reads change nothing, order submission and the admin status update
never reach a write (submission fails constructing the order, the status
update fails reconstructing it), and the webhook writes only the
Completed token. -/
theorem step_preserves_paid (secret : String) (oid : Nat) (s : Store)
    (op : ApiOp)
    (h : ∀ d, Store.get s oid = some d →
      d.payment_status = PaymentStatus.COMPLETED.val) :
    ∀ d', Store.get (step secret s op) oid = some d' →
      d'.payment_status = PaymentStatus.COMPLETED.val := by
  intro d' hd'
  cases op with
  | submitOrder req itemIds orderId now =>
      simp only [step, submit_order_snd] at hd'
      exact h d' hd'
  | getOrder oid2 =>
      exact h d' hd'
  | adminList k =>
      exact h d' hd'
  | adminGetOrder k oid2 =>
      exact h d' hd'
  | adminUpdateStatus k oid2 st now =>
      simp only [step, update_order_processing_status_snd] at hd'
      exact h d' hd'
  | createIntent pd sr =>
      exact h d' hd'
  | webhook sig vr now =>
      simp only [step] at hd'
      by_cases hsg : sig.getD "" = ""
      · rw [show (stripe_webhook sig vr s now).2 = s from
            by simp [stripe_webhook, hsg]] at hd'
        exact h d' hd'
      · cases vr with
        | badPayload =>
            rw [show (stripe_webhook sig .badPayload s now).2 = s from
                by simp [stripe_webhook, hsg]] at hd'
            exact h d' hd'
        | badSig =>
            rw [show (stripe_webhook sig .badSig s now).2 = s from
                by simp [stripe_webhook, hsg]] at hd'
            exact h d' hd'
        | event e =>
            by_cases ht : e.type = "payment_intent.succeeded"
            · cases hmo : e.metadata_order_id with
              | missing =>
                  rw [show (stripe_webhook sig (.event e) s now).2 = s
                      from by simp [stripe_webhook, hsg, ht, hmo]] at hd'
                  exact h d' hd'
              | malformed ms =>
                  rw [show (stripe_webhook sig (.event e) s now).2 = s
                      from by simp [stripe_webhook, hsg, ht, hmo]] at hd'
                  exact h d' hd'
              | valid oid2 =>
                  rw [show (stripe_webhook sig (.event e) s now).2 =
                      (update_order_payment_status s oid2
                        PaymentStatus.COMPLETED now).2 from
                      by simp [stripe_webhook, hsg, ht, hmo]] at hd'
                  exact update_payment_paid_preserves s oid oid2 now h
                    d' hd'
            · rw [show (stripe_webhook sig (.event e) s now).2 = s from
                  by simp [stripe_webhook, hsg, ht]] at hd'
              exact h d' hd'

/-- Claim C10: payment status is monotone.  If the stored document of an
order carries the "Completed" payment token, then after any sequence of
API operations — submissions, reads, admin listings, admin status
updates, payment-intent creations and webhooks, with any keys, clocks and
processor outcomes — the document still carries "Completed": no exposed
operation ever writes payment status back to Incomplete. -/
theorem claim_C10 (secret : String) (ops : List ApiOp) (s : Store)
    (oid : Nat)
    (h : ∀ d, Store.get s oid = some d →
      d.payment_status = PaymentStatus.COMPLETED.val) :
    ∀ d', Store.get (ops.foldl (step secret) s) oid = some d' →
      d'.payment_status = PaymentStatus.COMPLETED.val := by
  induction ops generalizing s with
  | nil => exact h
  | cons op ops ih =>
      intro d' hd'
      exact ih (step secret s op) (step_preserves_paid secret oid s op h)
        d' hd'

/-- Claim C10 witness: a paid order stays paid across a concrete webhook
re-delivery and a read. -/
theorem claim_C10_witness :
    OrderDoc.payment_status
        { paidDoc with payment_status := "Completed", updated_at := 9 } =
      PaymentStatus.COMPLETED.val :=
  claim_C10 "sk"
    [ApiOp.webhook (some "sig")
        (.event { type := "payment_intent.succeeded",
                  metadata_order_id := .valid 2 }) 9,
      ApiOp.getOrder 2]
    [(2, paidDoc)] 2
    (fun d hd => by
      rw [← Option.some.inj hd]
      rfl)
    { paidDoc with payment_status := "Completed", updated_at := 9 } rfl

end Blumelein
